import Mathlib

/-!
Shallow embedding of the crawl orchestration engine of `flowall-api`
(`src/services/crawler.ts`, class `CrawlerService`), together with proofs
of the specified properties.

Modelling conventions:
* Machine time (`Date.now()`) is an explicit `Nat` (milliseconds); within a
  single call to an operation the clock is treated as constant.
* Network behaviour is an explicit oracle: each provider/page request is
  resolved by a pure function supplied as a parameter.
* JS `Map<string, number>` becomes an association list with `set`-semantics
  insert (replace the previous binding).
* Fallible TS code (`throw` / `try` / `catch`) becomes `Except String`.
-/

namespace Flowall

/-! ## JS string primitives (list-based, so that proofs can evaluate them) -/

/-- ASCII whitespace test backing the JS `String.prototype.trim` model. -/
def isJsSpace (c : Char) : Bool := c = ' ' || c = '\t' || c = '\n' || c = '\r'

/-- JS `s.trim()`: strip leading and trailing whitespace. -/
def jsTrim (s : String) : String :=
  ⟨((s.data.dropWhile isJsSpace).reverse.dropWhile isJsSpace).reverse⟩

/-- Does the first character list lead (start) the second? -/
def charsLeading : List Char → List Char → Bool
  | [], _ => true
  | _ :: _, [] => false
  | a :: as, b :: bs => (a = b) && charsLeading as bs

/-- JS `s.startsWith(p)`. -/
def jsStartsWith (s p : String) : Bool := charsLeading p.data s.data

/-- JS `s.endsWith(p)`. -/
def jsEndsWith (s p : String) : Bool := charsLeading p.data.reverse s.data.reverse

/-- Worker for `splitChar`, accumulating the current segment reversed. -/
def splitCharAux (sep : Char) : List Char → List Char → List String
  | [], acc => [⟨acc.reverse⟩]
  | c :: rest, acc =>
    if c = sep then ⟨acc.reverse⟩ :: splitCharAux sep rest []
    else splitCharAux sep rest (c :: acc)

/-- JS `s.split(sep)` for a one-character separator (the only separators the
source uses are `'/'`, `'\n'` and `','`); on `""` it yields `[""]`, like JS. -/
def splitChar (sep : Char) (s : String) : List String := splitCharAux sep s.data []

/-! ## API-key rotation and circuit breaker (crawler.ts lines 26-91) -/

/-- Circuit-breaker duration: `CIRCUIT_BREAK_DURATION = 60 * 1000` ms. -/
def CIRCUIT_BREAK_DURATION : Nat := 60 * 1000

/-- Lookup in the breaker map (`this.keyCircuitBreaker.get(key)`). -/
def bLookup (k : String) : List (String × Nat) → Option Nat
  | [] => none
  | (k', v) :: rest => if k' = k then some v else bLookup k rest

/-- Removal from the breaker map (`this.keyCircuitBreaker.delete(key)`). -/
def bErase (k : String) : List (String × Nat) → List (String × Nat)
  | [] => []
  | (k', v) :: rest => if k' = k then bErase k rest else (k', v) :: bErase k rest

/-- Insertion into the breaker map (`this.keyCircuitBreaker.set(key, v)`). -/
def bInsert (k : String) (v : Nat) (m : List (String × Nat)) : List (String × Nat) :=
  (k, v) :: bErase k m

/-- The mutable state consulted by `getNextApiKey` / `circuitBreakKey`:
the key array `AI_API_KEYS`, the rotation cursor `currentKeyIndex`, the
breaker map `keyCircuitBreaker`, and the current wall clock (`Date.now()`). -/
structure KeyState where
  keys : List String
  cursor : Nat
  breaker : List (String × Nat)
  now : Nat
  deriving Repr, DecidableEq

/-- Source `circuitBreakKey` (lines 85-91): sets the breaker entry of `key` to
`Date.now() + CIRCUIT_BREAK_DURATION`. -/
def circuitBreakKey (key : String) (ks : KeyState) : KeyState :=
  { ks with breaker := bInsert key (ks.now + CIRCUIT_BREAK_DURATION) ks.breaker }

/-- The scanning `while (attempts < this.AI_API_KEYS.length)` loop inside
`getNextApiKey` (lines 55-75), recursing on the remaining attempt budget.
A key is returned when its breaker entry is absent or elapsed (elapsed
entries are deleted); the cursor advances on every probe. -/
def scanKey : KeyState → Nat → Option String × KeyState
  | ks, 0 => (none, ks)
  | ks, n + 1 =>
    match bLookup (ks.keys.getD ks.cursor "") ks.breaker with
    | none =>
      (some (ks.keys.getD ks.cursor ""),
        { ks with cursor := (ks.cursor + 1) % ks.keys.length })
    | some breakUntil =>
      if ks.now ≥ breakUntil then
        (some (ks.keys.getD ks.cursor ""),
          { ks with cursor := (ks.cursor + 1) % ks.keys.length,
                    breaker := bErase (ks.keys.getD ks.cursor "") ks.breaker })
      else
        scanKey { ks with cursor := (ks.cursor + 1) % ks.keys.length } n

/-- Source `getNextApiKey` (lines 48-80): `null` when no keys are configured or all
keys are circuit-broken, otherwise the next non-broken key in rotation. -/
def getNextApiKey (ks : KeyState) : Option String × KeyState :=
  if ks.keys.length = 0 then (none, ks) else scanKey ks ks.keys.length

/-- The breaker-trip condition inside `generateDescription` (lines 654-657):
HTTP 429 or 401 trips the breaker for the key used, any other status leaves
the breaker state untouched. -/
def applyBreak (status : Nat) (key : String) (ks : KeyState) : KeyState :=
  if status = 429 ∨ status = 401 then circuitBreakKey key ks else ks

/-! ## Gemini description generation (crawler.ts lines 566-688) -/

/-- Outcome of one provider request inside `generateDescription`'s `try`
block: a 2xx response with a body text, a non-2xx HTTP response with its
status and error body, or a transport-level failure (network error or the
15 s timeout, surfaced as a thrown `Error` whose message we record). -/
inductive AttemptOutcome where
  | ok (body : String)
  | httpErr (status : Nat) (body : String)
  | transportErr (msg : String)

/-- Result of a `generateDescription` call: the returned description or the
thrown error, the sequence of inter-attempt delays (ms), the number of
provider requests actually issued, and the final rotation/breaker state. -/
structure GDResult where
  result : Except String String
  delays : List Nat
  invocations : Nat
  final : KeyState

/-- The `for (let attempt = 1; attempt <= maxAttempts; attempt++)` loop of
`generateDescription` (lines 601-687), recursing on the remaining attempt
budget (`rem + 1` = attempts still allowed, including the current one).
Each failed attempt records the last error; between attempts the code waits
a fixed `await this.delay(500)`; on exhaustion the last error itself is
thrown (`throw lastError || new Error('Gemini 调用失败')`). -/
def gdGo (oracle : Nat → AttemptOutcome) : Nat → Nat → KeyState → Option String → GDResult
  | 0, _, ks, lastErr => ⟨.error (lastErr.getD "Gemini 调用失败"), [], 0, ks⟩
  | rem + 1, attempt, ks, lastErr =>
    match getNextApiKey ks with
    | (none, ks1) => ⟨.error "没有可用的 Gemini API Key (可能全部被熔断)", [], 0, ks1⟩
    | (some apiKey, ks1) =>
      match oracle attempt with
      | .ok body =>
        let description := jsTrim body
        if description = "" then
          match rem with
          | 0 => ⟨.error "Gemini 返回内容为空", [], 1, ks1⟩
          | _ + 1 =>
            let r := gdGo oracle rem (attempt + 1) ks1 (some "Gemini 返回内容为空")
            ⟨r.result, 500 :: r.delays, r.invocations + 1, r.final⟩
        else
          ⟨.ok description, [], 1, ks1⟩
      | .httpErr status body =>
        let err := "Gemini API 错误 " ++ toString status ++ ": " ++ body
        let ks2 := applyBreak status apiKey ks1
        match rem with
        | 0 => ⟨.error err, [], 1, ks2⟩
        | _ + 1 =>
          let r := gdGo oracle rem (attempt + 1) ks2 (some err)
          ⟨r.result, 500 :: r.delays, r.invocations + 1, r.final⟩
      | .transportErr msg =>
        match rem with
        | 0 => ⟨.error msg, [], 1, ks1⟩
        | _ + 1 =>
          let r := gdGo oracle rem (attempt + 1) ks1 (some msg)
          ⟨r.result, 500 :: r.delays, r.invocations + 1, r.final⟩

/-- The enrichment environment of one `generateDescription` /
`generateDescriptionWithRetry` call: the shared key state and the oracle
resolving the provider request of each attempt. -/
structure EnrichEnv where
  keyState : KeyState
  oracle : Nat → AttemptOutcome

/-- Source `generateDescription` (lines 594-688): at most
`maxAttempts = Math.min(AI_API_KEYS.length, 3)` attempts. -/
def generateDescription (env : EnrichEnv) (name : String) (tags : List String) : GDResult :=
  gdGo env.oracle (min env.keyState.keys.length 3) 1 env.keyState none

/-- The deterministic fallback used by `generateDescriptionWithRetry`
(line 571): `` `${name} - ${tags.join(', ')}` ``. -/
def fallbackDescription (name : String) (tags : List String) : String :=
  name ++ " - " ++ String.intercalate ", " tags

/-- Observable outcome of `generateDescriptionWithRetry`: the description it
returns and the number of provider requests issued. -/
structure GDWROut where
  desc : String
  calls : Nat
  deriving Repr, DecidableEq

/-- Source `generateDescriptionWithRetry` (lines 566-589): without configured keys
returns the fallback immediately; otherwise wraps `generateDescription` in a
`try`/`catch` that degrades any thrown error to the fallback. -/
def generateDescriptionWithRetry (env : EnrichEnv) (name : String) (tags : List String) :
    GDWROut :=
  let fallback := fallbackDescription name tags
  if env.keyState.keys.length = 0 then ⟨fallback, 0⟩
  else
    let r := generateDescription env name tags
    match r.result with
    | .ok d => ⟨d, r.invocations⟩
    | .error _ => ⟨fallback, r.invocations⟩

/-! ## Translation (crawler.ts lines 711-772) -/

/-- Outcome of the single provider request inside `translateContent`. -/
inductive TrOutcome where
  | ok (text : String)
  | httpErr (status : Nat)
  | transportErr (msg : String)

/-- Parsed translation (`{ name_zh?, tags_zh? }`). -/
structure TranslationResult where
  name_zh : Option String
  tags_zh : Option (List String)
  deriving Repr, DecidableEq

/-- The response-parsing part of `translateContent` (lines 756-767): split
the trimmed text into non-blank lines, first line is the title translation,
second line a comma-separated tag list; blank text yields `{}`. -/
def parseTranslation (text : String) : TranslationResult :=
  let t := jsTrim text
  if t = "" then ⟨none, none⟩
  else
    let lines := (splitChar '\n' t).filter (fun l => jsTrim l ≠ "")
    ⟨(lines.get? 0).map jsTrim,
     (lines.get? 1).map (fun l => ((splitChar ',' l).map jsTrim).filter (· ≠ ""))⟩

/-- Source `translateContent` (lines 711-772): skips the provider entirely when no
keys are configured; every failure path (non-2xx response, transport error,
blank response text) is caught and degraded to `{}`. -/
def translateContent (keys : List String) (outcome : TrOutcome) : TranslationResult :=
  if keys.length = 0 then ⟨none, none⟩
  else
    match outcome with
    | .ok text => parseTranslation text
    | .httpErr _ => ⟨none, none⟩
    | .transportErr _ => ⟨none, none⟩

/-! ## Detail-page fetch and parse (crawler.ts lines 403-485) -/

/-- The parts of a fetched detail page that `fetchDetailPage` inspects:
`response.ok` / `status` / `statusText`, and the extraction results of each
cheerio selector used by the function. `none` models an absent element or
attribute (cheerio's `undefined`); empty strings model present-but-empty
values (both are falsy in the source). -/
structure DetailPage where
  respOk : Bool
  status : Nat
  statusText : String
  entryTitleText : String
  videoPoster : Option String
  featuredImageSrc : Option String
  webmSourceSrc : Option String
  firstSourceSrc : Option String
  downloadDataUrl : Option String
  tagTexts : List String
  deriving Repr, DecidableEq

/-- Source interface `MoewallsRawData` (types/wallpaper.ts): the parsed detail-page record. -/
structure MoewallsRawData where
  id : String
  name : String
  cover_url : String
  preview_url : String
  video_url : String
  tags : List String
  deriving Repr, DecidableEq

/-- Model of `url.replace(/\/$/, '')`: strips one trailing slash. -/
def stripTrailingSlash (s : String) : String :=
  if jsEndsWith s "/" then s.dropRight 1 else s

/-- Model of `urlParts[urlParts.length - 1]` after `split('/')` of the slash-stripped
URL (JS `split` on the empty string yields `[""]`, so the default is never
reached on `String.splitOn`, which also never returns `[]`). -/
def lastSegment (url : String) : String :=
  (splitChar '/' (stripTrailingSlash url)).getLastD ""

/-- Root-relative URL normalisation (lines 440-442 and 451-453):
`if (u && u.startsWith('/')) u = 'https://moewalls.com' + u`. -/
def normalizeSiteUrl (u : String) : String :=
  if u ≠ "" ∧ jsStartsWith u "/" then "https://moewalls.com" ++ u else u

/-- Source `fetchDetailPage` (lines 403-485), given the page contents and the value
a `crypto.randomUUID()` call would produce. Throws (`Except.error`) on a
non-2xx response and on an absent/empty `data-url` attribute of the
`button#moe-download` element; otherwise builds the raw record, defaulting
the id to the fresh UUID and the name to `'Untitled'`. -/
def fetchDetailPage (url : String) (page : DetailPage) (uuid : String) :
    Except String MoewallsRawData :=
  if ¬page.respOk then
    .error ("HTTP " ++ toString page.status ++ ": " ++ page.statusText)
  else
    let id := if lastSegment url = "" then uuid else lastSegment url
    let name :=
      if jsTrim page.entryTitleText = "" then "Untitled" else jsTrim page.entryTitleText
    let cover0 := page.videoPoster.getD ""
    let cover1 := if cover0 = "" then page.featuredImageSrc.getD "" else cover0
    let cover_url := normalizeSiteUrl cover1
    let preview0 := page.webmSourceSrc.getD ""
    let preview1 := if preview0 = "" then page.firstSourceSrc.getD "" else preview0
    let preview_url := normalizeSiteUrl preview1
    let dataUrl := page.downloadDataUrl.getD ""
    if dataUrl = "" then
      .error ("未找到下载链接: " ++ url)
    else
      let video_url := "https://go.moewalls.com/download.php?video=" ++ dataUrl
      let tags := (page.tagTexts.map jsTrim).filter (· ≠ "")
      .ok ⟨id, name, cover_url, preview_url, video_url, tags⟩

/-! ## processWallpaper (crawler.ts lines 490-560) -/

/-- The columns of an existing `wallpapers` row that `processWallpaper`
reads (`select('id, description, name_zh, tags_zh')`). `none` models SQL
`NULL`/absent. -/
structure ExistingRecord where
  rowId : String
  description : Option String
  name_zh : Option String
  tags_zh : Option (List String)
  deriving Repr, DecidableEq

/-- The row `processWallpaper` writes through the persistence port. -/
structure WallpaperData where
  moewalls_id : String
  name : String
  name_zh : Option String
  description : String
  cover_url : String
  preview_url : String
  video_url : String
  deriving Repr, DecidableEq

/-- Values `'new' | 'updated'` — the values `processWallpaper` actually returns
(the declared `'skipped'` alternative is unreachable in the source). -/
inductive ProcessResult where
  | new
  | updated
  deriving Repr, DecidableEq

/-- Per-item environment of one `processWallpaper` call: the result of its
own existence lookup, whether the insert/update reports an error (and its
message), the enrichment environment for `generateDescriptionWithRetry`,
and the provider outcome for `translateContent`. -/
structure ItemEnv where
  dbRecord : Option ExistingRecord
  upsertError : Option String
  enrich : EnrichEnv
  translate : TrOutcome

/-- Observable outcome of `processWallpaper`: the returned tag or thrown
error, plus the row written when the upsert step was reached (`none` when
validation failed before any write). -/
structure PWOut where
  result : Except String ProcessResult
  upsert : Option WallpaperData

/-- JS `a || b` on optional strings (empty string is falsy). -/
def jsOrStr (a b : Option String) : Option String :=
  if a.getD "" = "" then b else a

/-- JS `a || b` on optional arrays (only `undefined`/`null` are falsy; an
empty array is truthy). -/
def jsOrList (a b : Option (List String)) : Option (List String) :=
  if a.isSome then a else b

/-- Source `processWallpaper` (lines 490-560): validates the raw record, re-checks
existence, fills the description via `generateDescriptionWithRetry` when
the stored one is absent/empty, translates when the stored translations are
absent/empty, then inserts or updates. The trailing `processTags` call only
logs its persistence error, so it is invisible here. -/
def processWallpaper (raw : MoewallsRawData) (env : ItemEnv) : PWOut :=
  if raw.id = "" ∨ raw.preview_url = "" ∨ raw.video_url = "" then
    ⟨.error "Invalid wallpaper data: missing required fields", none⟩
  else
    let existing := env.dbRecord
    let description0 := (existing.bind ExistingRecord.description).getD ""
    let description :=
      if description0 = "" then
        (generateDescriptionWithRetry env.enrich raw.name raw.tags).desc
      else description0
    let name_zh0 := existing.bind ExistingRecord.name_zh
    let tags_zh0 := existing.bind ExistingRecord.tags_zh
    let needsTranslation :=
      name_zh0.getD "" = "" ∨ tags_zh0.isNone ∨ tags_zh0.getD [] = []
    let translated :=
      if needsTranslation then
        let tr := translateContent env.enrich.keyState.keys env.translate
        (jsOrStr tr.name_zh name_zh0, jsOrList tr.tags_zh tags_zh0)
      else (name_zh0, tags_zh0)
    let wallpaperData : WallpaperData :=
      ⟨raw.id, raw.name, translated.1, description, raw.cover_url, raw.preview_url,
        raw.video_url⟩
    match env.upsertError with
    | some e =>
      ⟨.error ((if existing.isSome then "更新失败: " else "插入失败: ") ++ e),
        some wallpaperData⟩
    | none =>
      ⟨.ok (if existing.isSome then .updated else .new), some wallpaperData⟩

/-! ## Consumer pool and batch insertion (crawler.ts lines 112-348) -/

/-- The `stats` counters of a crawl session (line 112). -/
structure Stats where
  newCount : Nat
  updatedCount : Nat
  failedCount : Nat
  skippedCount : Nat
  deriving Repr, DecidableEq

/-- Sum of the four per-item counters. -/
def Stats.total (s : Stats) : Nat :=
  s.newCount + s.updatedCount + s.skippedCount + s.failedCount

/-- Constant `BATCH_INSERT_SIZE = 10` (line 16). -/
def BATCH_INSERT_SIZE : Nat := 10

/-- One dequeued work item as the consumer sees it: the URL, the result of
the consumer's existence lookup (the query selects only `id`, but the row
it hits also carries the enrichment columns, recorded here to state what
the skip decision ignores), the transport-level outcome of the detail
fetch, the UUID a `crypto.randomUUID()` call would generate, and the
environment of the eventual `processWallpaper` call. -/
structure WorkItem where
  url : String
  dbRecord : Option ExistingRecord
  fetchOutcome : Except String DetailPage
  uuid : String
  env : ItemEnv

/-- Counter update of one processed batch element (lines 337-341):
`'new'`/`'updated'` increment their counters, a thrown error increments
`failedCount`. -/
def applyResult (s : Stats) (r : Except String ProcessResult) : Stats :=
  match r with
  | .ok .new => { s with newCount := s.newCount + 1 }
  | .ok .updated => { s with updatedCount := s.updatedCount + 1 }
  | .error _ => { s with failedCount := s.failedCount + 1 }

/-- Source `batchInsert` (lines 325-348): processes every batched record through
`processWallpaper`, folding counter updates and recording the natural ids
of rows for which an upsert was attempted; the batch itself is cleared by
the caller's state below. -/
def batchInsert (batch : List (MoewallsRawData × ItemEnv)) (stats : Stats)
    (upserts : List String) : Stats × List String :=
  batch.foldl
    (fun acc b =>
      let r := processWallpaper b.1 b.2
      (applyResult acc.1 r.result,
        acc.2 ++ (match r.upsert with | some p => [p.moewalls_id] | none => [])))
    (stats, upserts)

/-- Consumer-pool state: the counters, the pending `processedBatch`, and the
accumulated list of attempted upserts (by natural id). -/
structure PoolState where
  stats : Stats
  batch : List (MoewallsRawData × ItemEnv)
  upserts : List String

/-- The body of `createConsumer`'s loop for one dequeued URL (lines
197-234): skip when the existence lookup hits (counting `skippedCount`),
otherwise fetch and parse the detail page — any thrown error counts
`failedCount` — and on success append to the batch, flushing through
`batchInsert` once `BATCH_INSERT_SIZE` is reached. -/
def consumeItem (st : PoolState) (it : WorkItem) : PoolState :=
  match it.dbRecord with
  | some _ =>
    { st with stats := { st.stats with skippedCount := st.stats.skippedCount + 1 } }
  | none =>
    let fetched := it.fetchOutcome.bind (fun page => fetchDetailPage it.url page it.uuid)
    match fetched with
    | .error _ =>
      { st with stats := { st.stats with failedCount := st.stats.failedCount + 1 } }
    | .ok raw =>
      let batch := st.batch ++ [(raw, it.env)]
      if BATCH_INSERT_SIZE ≤ batch.length then
        let flushed := batchInsert batch st.stats st.upserts
        ⟨flushed.1, [], flushed.2⟩
      else
        { st with batch := batch }

/-- Initial pool state (`stats` zeroed, empty batch, nothing upserted). -/
def initPool : PoolState := ⟨⟨0, 0, 0, 0⟩, [], []⟩

/-- The consumer pool over the sequence of URLs actually dequeued during
the session, followed by the final flush of the remaining batch (lines
247-249). Counter updates are serialized in the source (single-threaded
event loop), so the pool is a fold over the dequeue order. -/
def runCrawlPool (items : List WorkItem) : PoolState :=
  let st := items.foldl consumeItem initPool
  if 0 < st.batch.length then
    let flushed := batchInsert st.batch st.stats st.upserts
    ⟨flushed.1, [], flushed.2⟩
  else st

/-! ## Producer / discovery loop (crawler.ts lines 137-177) -/

/-- Outcome of one `fetchListPage(page)` call: a thrown error (timeout,
non-2xx, network failure) or a list of `n` extracted detail-page URLs. -/
inductive PageOutcome where
  | fail
  | items (n : Nat)
  deriving Repr, DecidableEq

/-- Producer-loop state: the next page to fetch, the consecutive-empty-page
counter, the pages fetched so far in order, and the number of URLs pushed
onto the queue. -/
structure ProducerState where
  page : Nat
  emptyCount : Nat
  fetched : List Nat
  queued : Nat
  deriving Repr, DecidableEq

/-- One iteration of the producer's `while (emptyCount < 3)` body (lines
141-169): a successful-but-empty page increments the streak and advances
`page`; a non-empty page resets the streak, queues the URLs and advances
`page`; a thrown `fetchListPage` error is caught *after* the `page++`
statement was skipped, so it increments the streak without advancing
`page`. -/
def producerStep (fetchListPage : Nat → PageOutcome) (s : ProducerState) : ProducerState :=
  match fetchListPage s.page with
  | .fail =>
    { s with emptyCount := s.emptyCount + 1, fetched := s.fetched ++ [s.page] }
  | .items 0 =>
    { s with emptyCount := s.emptyCount + 1, page := s.page + 1,
             fetched := s.fetched ++ [s.page] }
  | .items (n + 1) =>
    { s with emptyCount := 0, page := s.page + 1, queued := s.queued + (n + 1),
             fetched := s.fetched ++ [s.page] }

/-- The producer loop, fuelled (the source loop need not terminate when the
site keeps serving non-empty pages; `none` = fuel exhausted before the
empty-streak condition fired). The abort-signal early exit is a separate
concern (claim C9) and is not taken here. -/
def producerRun (fetchListPage : Nat → PageOutcome) :
    Nat → ProducerState → Option ProducerState
  | 0, _ => none
  | fuel + 1, s =>
    if s.emptyCount < 3 then producerRun fetchListPage fuel (producerStep fetchListPage s)
    else some s

/-- Initial state `let page = 1; let emptyCount = 0` (lines 138-139). -/
def producerInit : ProducerState := ⟨1, 0, [], 0⟩

/-! ## Session mutual exclusion (crawler.ts lines 103-110, 296-313) -/

/-- How the body of one `crawl()` session terminates: normal completion,
completion after the abort signal was observed, or a session-fatal error
re-thrown to the caller (line 295). -/
inductive BodyOutcome where
  | completed
  | aborted
  | fatal (msg : String)
  deriving Repr, DecidableEq

/-- The controller fields guarding mutual exclusion: `isRunning` and
whether `abortController` currently holds a controller. -/
structure ControllerState where
  isRunning : Bool
  hasAbortController : Bool
  deriving Repr, DecidableEq

/-- Source `crawl()` at the level of its entry guard and `finally` block: a running
session rejects the call with the guard error and leaves the state alone
(lines 104-106); otherwise the flags are set (lines 108-109), the body runs
to its outcome, and the `finally` block (lines 296-299) clears both flags on
every exit path — normal return, abort, and thrown error alike. -/
def crawlSession (s : ControllerState) (body : BodyOutcome) :
    Except String BodyOutcome × ControllerState :=
  if s.isRunning then (.error "已有爬取任务正在运行", s)
  else
    let after : ControllerState := ⟨false, false⟩
    match body with
    | .fatal msg => (.error msg, after)
    | o => (.ok o, after)

/-! ## Concrete scenarios used by the counterexamples and witnesses -/

/-- Spec scenario for discovery termination: pages 1-3 yield five URLs
each, pages 4-6 are empty, page 7 onward would yield URLs again. -/
def specScenarioPages : Nat → PageOutcome := fun p =>
  if p ≤ 3 then .items 5 else if p ≤ 6 then .items 0 else .items 5

/-- A site where page 1 yields one URL and every later page fails outright
(timeout / thrown error after the built-in fetch retry, i.e. the `catch`
branch of the producer). -/
def failingPage2 : Nat → PageOutcome := fun p =>
  if p = 1 then .items 1 else .fail

/-- Three configured credentials, fresh rotation state, clock at 0. -/
def threeKeyState : KeyState := ⟨["k1", "k2", "k3"], 0, [], 0⟩

/-- Enrichment environment in which every provider request fails at the
transport level with the same error. -/
def alwaysDownEnv : EnrichEnv := ⟨threeKeyState, fun _ => .transportErr "network down"⟩

/-- Enrichment environment with no configured credentials. -/
def noKeyEnv : EnrichEnv := ⟨⟨[], 0, [], 0⟩, fun _ => .transportErr "unreachable"⟩

/-- A minimal per-item environment (fresh row, healthy persistence). -/
def plainItemEnv : ItemEnv := ⟨none, none, noKeyEnv, .transportErr "unreachable"⟩

/-- Modelled from the spec: "check whether enrichment fields are already
populated; if fully populated, increment `skippedCount`" — the spec's
fully-populated test on an existing record (description, translated title
and translated tags all present and non-empty). Stated only to compare the
spec's skip condition with the source's; the source code contains no such
check. -/
def specEnrichmentPopulated (r : ExistingRecord) : Bool :=
  (r.description.getD "" != "") && (r.name_zh.getD "" != "") &&
    !(r.tags_zh.getD []).isEmpty

/-- An existing `wallpapers` row whose enrichment columns are all NULL. -/
def bareRecord : ExistingRecord := ⟨"row-1", none, none, none⟩

/-- A dequeued work item whose consumer lookup hits `bareRecord`. -/
def bareRecordItem : WorkItem :=
  ⟨"https://moewalls.com/sakura-stream/", some bareRecord, .error "not fetched", "uuid-1",
    plainItemEnv⟩

/-- A 2xx detail page whose `button#moe-download` element carries no
`data-url` attribute. -/
def tokenlessPage : DetailPage :=
  ⟨true, 200, "OK", "Sakura Stream", none, none, none, none, none, ["anime"]⟩

/-- A 2xx detail page with a download token and ordinary content. -/
def tokenPage : DetailPage :=
  ⟨true, 200, "OK", "Sakura Stream", some "/poster.jpg", none, some "/preview.webm", none,
    some "abc123", ["anime", " scenery "]⟩

/-- A dequeued work item that is new to the store and whose detail page
lacks the download token. -/
def tokenlessItem : WorkItem :=
  ⟨"https://moewalls.com/sakura-stream/", none, .ok tokenlessPage, "uuid-2", plainItemEnv⟩

/-! ## Discovery-loop lemmas and claim C2 -/

/-- One producer iteration raises the empty-streak counter by at most 1. -/
theorem producerStep_emptyCount_le (f : Nat → PageOutcome) (s : ProducerState) :
    (producerStep f s).emptyCount ≤ s.emptyCount + 1 := by
  unfold producerStep
  rcases h : f s.page with _ | (_ | m) <;> simp [h]

/-- A completed producer run ends with the streak counter at exactly 3. -/
theorem producerRun_emptyCount (f : Nat → PageOutcome) :
    ∀ fuel (s sf : ProducerState), s.emptyCount ≤ 3 →
      producerRun f fuel s = some sf → sf.emptyCount = 3 := by
  intro fuel
  induction fuel with
  | zero => intro s sf _ h; simp [producerRun] at h
  | succ n ih =>
    intro s sf hle h
    unfold producerRun at h
    split at h
    · have hstep := producerStep_emptyCount_le f s
      exact ih _ _ (by omega) h
    · cases h
      omega

/-- Claim C2, counterexample: with page 1 non-empty and every later page
failing outright, the producer fetches page 2 three times in a row (the
`catch` branch skips the `page++` statement), so the fetch trace is not
duplicate-free — refuting "a page fetch that fails outright still advances
the page counter ... so the same page number is never refetched". -/
theorem claim_C2_counterexample :
    producerRun failingPage2 20 producerInit =
      some { page := 2, emptyCount := 3, fetched := [1, 2, 2, 2], queued := 1 } ∧
    ¬ ([1, 2, 2, 2] : List Nat).Nodup := by
  exact ⟨by decide, by decide⟩

/-- Claim C2 (amended): the discovery loop starts at page 1 and stops
exactly when the consecutive empty-page streak reaches three, never
fetching a further page; an empty page and a non-empty page advance the
page counter, while a page fetch that fails outright counts toward the
streak *without* advancing the page counter, so a failing page is
refetched. On the spec's scenario (pages 4, 5, 6 empty, page 7 non-empty
again) the run fetches exactly pages 1-6 and never page 7. -/
theorem claim_C2_discovery_loop :
    (∀ f fuel sf, producerRun f fuel producerInit = some sf → sf.emptyCount = 3) ∧
    (∀ f s, f s.page = .fail →
      producerStep f s =
        { s with emptyCount := s.emptyCount + 1, fetched := s.fetched ++ [s.page] }) ∧
    (∀ f s, f s.page = .items 0 →
      producerStep f s =
        { s with page := s.page + 1, emptyCount := s.emptyCount + 1,
                 fetched := s.fetched ++ [s.page] }) ∧
    (∀ f s n, f s.page = .items (n + 1) →
      producerStep f s =
        { s with page := s.page + 1, emptyCount := 0, queued := s.queued + (n + 1),
                 fetched := s.fetched ++ [s.page] }) ∧
    producerRun specScenarioPages 20 producerInit =
      some { page := 7, emptyCount := 3, fetched := [1, 2, 3, 4, 5, 6], queued := 15 } := by
  refine ⟨fun f fuel sf h => producerRun_emptyCount f fuel _ sf (by simp [producerInit]) h,
    ?_, ?_, ?_, by decide⟩
  · intro f s h
    unfold producerStep
    rw [h]
  · intro f s h
    unfold producerStep
    rw [h]
  · intro f s n h
    unfold producerStep
    rw [h]

/-- Witness for claim C2's theorem at concrete inputs. -/
theorem claim_C2_discovery_loop_witness :
    producerStep failingPage2 ⟨2, 1, [1], 1⟩ = ⟨2, 2, [1, 2], 1⟩ ∧
    (⟨7, 3, [1, 2, 3, 4, 5, 6], 15⟩ : ProducerState).emptyCount = 3 := by
  constructor
  · exact claim_C2_discovery_loop.2.1 failingPage2 ⟨2, 1, [1], 1⟩ (by decide)
  · exact claim_C2_discovery_loop.1 specScenarioPages 20
      { page := 7, emptyCount := 3, fetched := [1, 2, 3, 4, 5, 6], queued := 15 } (by decide)

/-! ## Counter-sum lemmas and claim C1 -/

/-- Every processed batch element moves exactly one counter by one. -/
theorem applyResult_total (s : Stats) (r : Except String ProcessResult) :
    (applyResult s r).total = s.total + 1 := by
  rcases r with e | pr
  · simp [applyResult, Stats.total]
    omega
  · rcases pr with _ | _ <;> simp [applyResult, Stats.total] <;> omega

/-- Unfolding `batchInsert` one element at a time. -/
theorem batchInsert_cons (b : MoewallsRawData × ItemEnv) (rest : List (MoewallsRawData × ItemEnv))
    (stats : Stats) (ups : List String) :
    batchInsert (b :: rest) stats ups =
      batchInsert rest (applyResult stats (processWallpaper b.1 b.2).result)
        (ups ++ (match (processWallpaper b.1 b.2).upsert with
                 | some p => [p.moewalls_id] | none => [])) := rfl

/-- Lemma: `batchInsert` adds exactly the batch size to the counter sum. -/
theorem batchInsert_total (batch : List (MoewallsRawData × ItemEnv)) :
    ∀ (stats : Stats) (ups : List String),
      (batchInsert batch stats ups).1.total = stats.total + batch.length := by
  induction batch with
  | nil => intro stats ups; rfl
  | cons b rest ih =>
    intro stats ups
    rw [batchInsert_cons, ih, applyResult_total]
    simp
    omega

/-- Lemma: `batchInsert` never touches `skippedCount`. -/
theorem batchInsert_skipped (batch : List (MoewallsRawData × ItemEnv)) :
    ∀ (stats : Stats) (ups : List String),
      (batchInsert batch stats ups).1.skippedCount = stats.skippedCount := by
  induction batch with
  | nil => intro stats ups; rfl
  | cons b rest ih =>
    intro stats ups
    rw [batchInsert_cons, ih]
    rcases (processWallpaper b.1 b.2).result with e | pr
    · rfl
    · rcases pr with _ | _ <;> rfl

/-- Counter sum plus pending-batch size of a pool state. -/
def PoolState.charged (st : PoolState) : Nat := st.stats.total + st.batch.length

/-- Every dequeued item raises counters-plus-pending by exactly one. -/
theorem consumeItem_charged (st : PoolState) (it : WorkItem) :
    (consumeItem st it).charged = st.charged + 1 := by
  unfold consumeItem
  rcases it.dbRecord with _ | r
  · rcases it.fetchOutcome.bind (fun page => fetchDetailPage it.url page it.uuid) with e | raw
    · simp [PoolState.charged, Stats.total]
      omega
    · by_cases hlen : BATCH_INSERT_SIZE ≤ (st.batch ++ [(raw, it.env)]).length
      · simp only [hlen, if_true]
        simp [PoolState.charged, batchInsert_total]
        omega
      · simp only [hlen, if_false]
        simp [PoolState.charged]
        omega
  · simp [PoolState.charged, Stats.total]
    omega

/-- Fold version of `consumeItem_charged`. -/
theorem foldl_consumeItem_charged (items : List WorkItem) :
    ∀ st : PoolState, (items.foldl consumeItem st).charged = st.charged + items.length := by
  induction items with
  | nil => intro st; rfl
  | cons it rest ih =>
    intro st
    rw [List.foldl_cons, ih, consumeItem_charged]
    simp only [List.length_cons]
    omega

/-- Claim C1 (confirmed): for a completed session, the final counters
satisfy `newCount + updatedCount + skippedCount + failedCount = number of
work items dequeued and dispatched to the consumer pool` — each dispatched
item resolves into exactly one of the four counters (skip, fetch failure,
or one of new/updated/failed after `batchInsert`, including the final batch
flush). -/
theorem claim_C1_counter_sum (items : List WorkItem) :
    (runCrawlPool items).stats.newCount + (runCrawlPool items).stats.updatedCount +
      (runCrawlPool items).stats.skippedCount + (runCrawlPool items).stats.failedCount =
      items.length := by
  have hfold := foldl_consumeItem_charged items initPool
  have hinit : PoolState.charged initPool = 0 := rfl
  unfold runCrawlPool
  set st := items.foldl consumeItem initPool with hst
  by_cases hb : 0 < st.batch.length
  · simp only [hb, if_true]
    have := batchInsert_total st.batch st.stats st.upserts
    have hgoal : (batchInsert st.batch st.stats st.upserts).1.total = items.length := by
      rw [this]
      have : st.charged = items.length := by rw [hfold, hinit]; omega
      simpa [PoolState.charged] using this
    simpa [Stats.total] using hgoal
  · simp only [hb, if_false]
    have hbz : st.batch.length = 0 := by omega
    have : st.charged = items.length := by rw [hfold, hinit]; omega
    have hgoal : st.stats.total = items.length := by
      simpa [PoolState.charged, hbz] using this
    simpa [Stats.total] using hgoal

/-! ## Circuit-breaker lemmas and claim C4 -/

/-- A key returned by the rotation scan has no breaker entry still in the
future (its entry, if any, has elapsed). -/
theorem scanKey_not_tripped :
    ∀ (n : Nat) (ks : KeyState) (k : String) (ks' : KeyState),
      scanKey ks n = (some k, ks') → ∀ b, bLookup k ks.breaker = some b → b ≤ ks.now := by
  intro n
  induction n with
  | zero => intro ks k ks' h; simp [scanKey] at h
  | succ m ih =>
    intro ks k ks' h b hb
    unfold scanKey at h
    rcases hl : bLookup (ks.keys.getD ks.cursor "") ks.breaker with _ | bu
    · rw [hl] at h
      dsimp only at h
      obtain ⟨hk, -⟩ := Prod.mk.injEq .. ▸ h
      obtain rfl : ks.keys.getD ks.cursor "" = k := Option.some.inj hk
      rw [hl] at hb
      cases hb
    · rw [hl] at h
      dsimp only at h
      by_cases hge : ks.now ≥ bu
      · rw [if_pos hge] at h
        obtain ⟨hk, -⟩ := Prod.mk.injEq .. ▸ h
        obtain rfl : ks.keys.getD ks.cursor "" = k := Option.some.inj hk
        rw [hl] at hb
        obtain rfl : bu = b := Option.some.inj hb
        exact hge
      · rw [if_neg hge] at h
        exact ih _ _ _ h b hb

/-- Lemma: `bLookup` after a `set`-style insert of the same key. -/
theorem bLookup_bInsert_self (k : String) (v : Nat) (m : List (String × Nat)) :
    bLookup k (bInsert k v m) = some v := by
  simp [bInsert, bLookup]

/-- Claim C4 (confirmed): (1) a credential whose breaker entry lies in the
future is never returned by `getNextApiKey`; (2) once every entry has
elapsed, selection succeeds again — no external reset needed, the key at
the cursor is returned; (3) `circuitBreakKey` stamps the credential
unavailable until `now + CIRCUIT_BREAK_DURATION`; (4) exactly the
quota-exhausted / invalid-credential statuses 429 and 401 trip the breaker
inside `generateDescription`, any other (transient) status leaves the
rotation state — hence selectability — completely unchanged. -/
theorem claim_C4_circuit_breaker :
    (∀ (ks : KeyState) (k : String) (ks' : KeyState),
        getNextApiKey ks = (some k, ks') →
        ∀ b, bLookup k ks.breaker = some b → b ≤ ks.now) ∧
    (∀ ks : KeyState, ks.keys.length ≠ 0 →
        (∀ k b, bLookup k ks.breaker = some b → b ≤ ks.now) →
        (getNextApiKey ks).1 = some (ks.keys.getD ks.cursor "")) ∧
    (∀ (k : String) (ks : KeyState),
        bLookup k (circuitBreakKey k ks).breaker = some (ks.now + CIRCUIT_BREAK_DURATION)) ∧
    (∀ (status : Nat) (k : String) (ks : KeyState), status = 429 ∨ status = 401 →
        applyBreak status k ks = circuitBreakKey k ks) ∧
    (∀ (status : Nat) (k : String) (ks : KeyState), status ≠ 429 → status ≠ 401 →
        applyBreak status k ks = ks) := by
  refine ⟨?_, ?_, ?_, ?_, ?_⟩
  · intro ks k ks' h b hb
    unfold getNextApiKey at h
    split at h
    · obtain ⟨hk, -⟩ := Prod.mk.injEq .. ▸ h
      cases hk
    · exact scanKey_not_tripped _ _ _ _ h b hb
  · intro ks hne hall
    unfold getNextApiKey
    rw [if_neg hne]
    obtain ⟨m, hm⟩ : ∃ m, ks.keys.length = m + 1 := ⟨ks.keys.length - 1, by omega⟩
    rw [hm]
    unfold scanKey
    rcases hl : bLookup (ks.keys.getD ks.cursor "") ks.breaker with _ | bu
    · rfl
    · dsimp only
      rw [if_pos (hall _ _ hl)]
  · intro k ks
    exact bLookup_bInsert_self k (ks.now + CIRCUIT_BREAK_DURATION) ks.breaker
  · intro status k ks h
    simp [applyBreak, h]
  · intro status k ks h1 h2
    simp [applyBreak, h1, h2]

/-- Witness for claim C4's theorem at concrete states: after `"a"` trips at
time 0, it is stamped until 60000 and not selected at time 59999 (the scan
skips to `"b"`), while it is selected again at time 60000; a transient
status (500) leaves the state untouched. -/
theorem claim_C4_circuit_breaker_witness :
    bLookup "a" (circuitBreakKey "a" (⟨["a", "b"], 0, [], 0⟩ : KeyState)).breaker =
      some 60000 ∧
    (getNextApiKey ⟨["a", "b"], 0, [("a", 60000)], 60000⟩).1 = some "a" ∧
    applyBreak 500 "a" ⟨["a", "b"], 0, [], 0⟩ = ⟨["a", "b"], 0, [], 0⟩ ∧
    applyBreak 429 "a" ⟨["a", "b"], 0, [], 0⟩ =
      circuitBreakKey "a" ⟨["a", "b"], 0, [], 0⟩ := by
  refine ⟨?_, ?_, ?_, ?_⟩
  · exact claim_C4_circuit_breaker.2.2.1 "a" ⟨["a", "b"], 0, [], 0⟩
  · refine claim_C4_circuit_breaker.2.1 ⟨["a", "b"], 0, [("a", 60000)], 60000⟩ (by decide) ?_
    intro k b hb
    show b ≤ 60000
    by_cases hk : "a" = k
    · simp [bLookup, hk] at hb
      omega
    · simp [bLookup, hk] at hb
  · exact claim_C4_circuit_breaker.2.2.2.2 500 "a" ⟨["a", "b"], 0, [], 0⟩
      (by decide) (by decide)
  · exact claim_C4_circuit_breaker.2.2.2.1 429 "a" ⟨["a", "b"], 0, [], 0⟩ (Or.inl rfl)

/-! ## Retry-loop lemmas and claim C3 -/

/-- With an empty breaker map, key selection returns the key at the cursor
and only advances the cursor. -/
theorem getNextApiKey_empty_breaker (ks : KeyState) (hb : ks.breaker = [])
    (hne : ks.keys.length ≠ 0) :
    getNextApiKey ks = (some (ks.keys.getD ks.cursor ""),
      { ks with cursor := (ks.cursor + 1) % ks.keys.length }) := by
  unfold getNextApiKey
  rw [if_neg hne]
  obtain ⟨m, hm⟩ : ∃ m, ks.keys.length = m + 1 := ⟨ks.keys.length - 1, by omega⟩
  conv_lhs => rw [hm]
  unfold scanKey
  rw [hb]
  rfl

/-- When every attempt fails at the transport level and the breaker map is
empty, the retry loop runs through its whole budget: `rem` provider
invocations, a fixed 500 ms delay between consecutive attempts, and the
last underlying error as the overall outcome. -/
theorem gdGo_transport_fail (msgs : Nat → String) :
    ∀ (rem attempt : Nat) (ks : KeyState) (lastErr : Option String),
      ks.breaker = [] → ks.keys.length ≠ 0 → 1 ≤ rem →
      (gdGo (fun n => .transportErr (msgs n)) rem attempt ks lastErr).result =
          .error (msgs (attempt + rem - 1)) ∧
      (gdGo (fun n => .transportErr (msgs n)) rem attempt ks lastErr).delays =
          List.replicate (rem - 1) 500 ∧
      (gdGo (fun n => .transportErr (msgs n)) rem attempt ks lastErr).invocations =
          rem + 1 - 1 := by
  intro rem
  induction rem with
  | zero => intro attempt ks lastErr _ _ h1; omega
  | succ m ih =>
    intro attempt ks lastErr hb hne _
    rw [gdGo, getNextApiKey_empty_breaker ks hb hne]
    rcases m with _ | m'
    · refine ⟨?_, rfl, rfl⟩
      show Except.error (msgs attempt) = Except.error (msgs (attempt + 1 - 1))
      rw [show attempt + 1 - 1 = attempt from by omega]
    · obtain ⟨ih1, ih2, ih3⟩ := ih (attempt + 1)
        { ks with cursor := (ks.cursor + 1) % ks.keys.length }
        (some (msgs attempt)) hb hne (by omega)
      dsimp only
      rw [ih1, ih2, ih3]
      refine ⟨?_, ?_, by omega⟩
      · rw [show attempt + 1 + (m' + 1) - 1 = attempt + (m' + 1 + 1) - 1 from by omega]
      · rw [show m' + 1 + 1 - 1 = (m' + 1 - 1) + 1 from by omega, List.replicate_succ]

/-- Claim C3, counterexample: with three configured credentials and every
attempt failing at the transport level, the inter-attempt waits are the
fixed pair `[500, 500]` — which no base satisfies as consecutive values of
`base * 2 ^ attempt` — and the raised error is the last underlying error
verbatim, not a wrapped error naming a context. -/
theorem claim_C3_counterexample :
    (generateDescription alwaysDownEnv "n" ["t"]).delays = [500, 500] ∧
    (generateDescription alwaysDownEnv "n" ["t"]).result = .error "network down" ∧
    (generateDescription alwaysDownEnv "n" ["t"]).invocations = 3 ∧
    (∀ base a : Nat, ¬ (500 = base * 2 ^ a ∧ 500 = base * 2 ^ (a + 1))) := by
  refine ⟨rfl, rfl, rfl, ?_⟩
  rintro b a ⟨h1, h2⟩
  rw [pow_succ, ← mul_assoc, ← h1] at h2
  omega

/-- Claim C3 (amended): the retry executor for the enrichment call retries
up to `maxAttempts = min(credential count, 3)`; between consecutive
attempts it waits a *fixed* 500 ms (not an exponential backoff); when every
attempt fails (with a credential available each time), the provider is
invoked exactly `maxAttempts` times and the *last underlying error itself*
is re-raised — no wrapping error naming a context is constructed. -/
theorem claim_C3_retry_loop (ks : KeyState) (msgs : Nat → String) (name : String)
    (tags : List String) (hb : ks.breaker = []) (hne : ks.keys ≠ []) :
    (generateDescription ⟨ks, fun n => .transportErr (msgs n)⟩ name tags).invocations =
      min ks.keys.length 3 ∧
    (generateDescription ⟨ks, fun n => .transportErr (msgs n)⟩ name tags).delays =
      List.replicate (min ks.keys.length 3 - 1) 500 ∧
    (generateDescription ⟨ks, fun n => .transportErr (msgs n)⟩ name tags).result =
      .error (msgs (min ks.keys.length 3)) := by
  have hlen : ks.keys.length ≠ 0 := by
    simpa using hne
  have h1 : 1 ≤ min ks.keys.length 3 := by omega
  obtain ⟨h1r, h2r, h3r⟩ := gdGo_transport_fail msgs (min ks.keys.length 3) 1 ks none hb hlen h1
  unfold generateDescription
  refine ⟨by rw [h3r]; omega, h2r, ?_⟩
  rw [h1r, show 1 + min ks.keys.length 3 - 1 = min ks.keys.length 3 from by omega]

/-- Witness for claim C3's theorem: three credentials, every attempt a
transport failure. -/
theorem claim_C3_retry_loop_witness :
    (generateDescription alwaysDownEnv "n" ["t"]).invocations = min 3 3 := by
  exact (claim_C3_retry_loop threeKeyState (fun _ => "network down") "n" ["t"] rfl
    (by decide)).1

/-! ## Claim C5: skip-on-existence -/

/-- Claim C5, counterexample: a work item whose natural id already has a
record is skipped (and processing of the item stops — nothing is batched or
upserted) even though *none* of the enrichment fields of the existing
record are populated, refuting "increments skippedCount and stops
processing that item only if they are fully populated". -/
theorem claim_C5_counterexample :
    (consumeItem initPool bareRecordItem).stats = ⟨0, 0, 0, 1⟩ ∧
    (consumeItem initPool bareRecordItem).batch = [] ∧
    (consumeItem initPool bareRecordItem).upserts = [] ∧
    specEnrichmentPopulated bareRecord = false := by
  exact ⟨rfl, rfl, rfl, rfl⟩

/-- Claim C5 (amended): the consumer's existence check (which selects only
the row id) increments `skippedCount` and stops processing the item
*whenever* a record with the natural id exists — the enrichment fields of
the existing record are never consulted, so an existing record with missing
enrichment fields is also skipped, not re-processed; only items with no
existing record proceed (and then never touch `skippedCount`). -/
theorem claim_C5_skip_on_existence :
    (∀ (st : PoolState) (it : WorkItem) (r : ExistingRecord), it.dbRecord = some r →
      consumeItem st it =
        { st with stats := { st.stats with skippedCount := st.stats.skippedCount + 1 } }) ∧
    (∀ (st : PoolState) (it : WorkItem), it.dbRecord = none →
      (consumeItem st it).stats.skippedCount = st.stats.skippedCount) := by
  constructor
  · intro st it r h
    unfold consumeItem
    rw [h]
  · intro st it h
    unfold consumeItem
    rw [h]
    dsimp only
    rcases it.fetchOutcome.bind (fun page => fetchDetailPage it.url page it.uuid) with e | raw
    · rfl
    · dsimp only
      by_cases hlen : BATCH_INSERT_SIZE ≤ (st.batch ++ [(raw, it.env)]).length
      · simp only [hlen, if_true]
        exact batchInsert_skipped _ _ _
      · simp only [hlen, if_false]

/-- Witness for claim C5's theorem: both parts at concrete items. -/
theorem claim_C5_skip_on_existence_witness :
    consumeItem initPool bareRecordItem =
      { initPool with
          stats := { initPool.stats with skippedCount := initPool.stats.skippedCount + 1 } } ∧
    (consumeItem initPool tokenlessItem).stats.skippedCount =
      initPool.stats.skippedCount := by
  constructor
  · exact claim_C5_skip_on_existence.1 initPool bareRecordItem bareRecord rfl
  · exact claim_C5_skip_on_existence.2 initPool tokenlessItem rfl

/-! ## Claim C6: no-credential fallback -/

/-- Claim C6, counterexample: with no credentials configured the fallback
description for title `"A"` and tags `["b"]` is `"A - b"` (title, `" - "`,
comma-joined tags) and not `"A, b"` (title, `", "`, comma-joined tags) as
the claim states. -/
theorem claim_C6_counterexample :
    (generateDescriptionWithRetry noKeyEnv "A" ["b"]).desc = "A - b" ∧
    "A - b" ≠ "A" ++ ", " ++ String.intercalate ", " ["b"] := by
  exact ⟨rfl, by decide⟩

/-- Claim C6 (amended): when no enrichment credentials are configured, the
enrichment step returns the deterministic fallback immediately — the
description equals the title followed by `" - "` followed by the
comma-joined tags — with zero provider calls, and translation returns the
empty result without a call either. -/
theorem claim_C6_no_credentials (env : EnrichEnv) (name : String) (tags : List String)
    (tr : TrOutcome) (h : env.keyState.keys = []) :
    generateDescriptionWithRetry env name tags =
      ⟨name ++ " - " ++ String.intercalate ", " tags, 0⟩ ∧
    translateContent env.keyState.keys tr = ⟨none, none⟩ := by
  unfold generateDescriptionWithRetry translateContent fallbackDescription
  rw [h]
  exact ⟨rfl, rfl⟩

/-- Witness for claim C6's theorem at a concrete environment. -/
theorem claim_C6_no_credentials_witness :
    generateDescriptionWithRetry noKeyEnv "A" ["b", "c"] = ⟨"A - b, c", 0⟩ := by
  exact (claim_C6_no_credentials noKeyEnv "A" ["b", "c"] (.transportErr "x") rfl).1

/-! ## Claim C7: enrichment failures never escape the enrichment boundary -/

/-- Claim C7 (confirmed): (1) whenever `generateDescription` throws — any
transport error, timeout, malformed/empty response, all credentials
tripped, or exhausted retries — `generateDescriptionWithRetry` catches it
and returns the fallback description; (2) `translateContent` degrades every
provider failure to the empty result; (3) the success/failure outcome of
`processWallpaper` (and hence which of new/updated/failed is counted) is
completely independent of the enrichment environment — an enrichment
failure can therefore never put an item into `failedCount` or abandon it. -/
theorem claim_C7_enrichment_isolated :
    (∀ (env : EnrichEnv) (name : String) (tags : List String) (e : String),
        (generateDescription env name tags).result = .error e →
        (generateDescriptionWithRetry env name tags).desc = fallbackDescription name tags) ∧
    (∀ (keys : List String) (msg : String),
        translateContent keys (.transportErr msg) = ⟨none, none⟩) ∧
    (∀ (keys : List String) (status : Nat),
        translateContent keys (.httpErr status) = ⟨none, none⟩) ∧
    (∀ (raw : MoewallsRawData) (env1 env2 : ItemEnv),
        env1.dbRecord = env2.dbRecord → env1.upsertError = env2.upsertError →
        (processWallpaper raw env1).result = (processWallpaper raw env2).result) := by
  refine ⟨?_, ?_, ?_, ?_⟩
  · intro env name tags e h
    unfold generateDescriptionWithRetry
    by_cases hk : env.keyState.keys.length = 0
    · rw [if_pos hk]
    · rw [if_neg hk]
      dsimp only
      rw [h]
  · intro keys msg
    unfold translateContent
    split
    · rfl
    · rfl
  · intro keys status
    unfold translateContent
    split
    · rfl
    · rfl
  · intro raw e1 e2 h1 h2
    unfold processWallpaper
    by_cases hv : raw.id = "" ∨ raw.preview_url = "" ∨ raw.video_url = ""
    · rw [if_pos hv, if_pos hv]
    · rw [if_neg hv, if_neg hv]
      dsimp only
      rw [h1, h2]
      rcases e2.upsertError with _ | msg <;> rfl

/-- Witness for claim C7's theorem: the three-key always-failing
environment degrades to the fallback; `processWallpaper`'s outcome agrees
between the no-key environment and the always-failing environment. -/
theorem claim_C7_enrichment_isolated_witness :
    (generateDescriptionWithRetry alwaysDownEnv "n" ["t"]).desc =
      fallbackDescription "n" ["t"] ∧
    translateContent ["k1"] (.transportErr "boom") = ⟨none, none⟩ ∧
    (processWallpaper ⟨"w", "n", "c", "p", "v", []⟩
        ⟨none, none, noKeyEnv, .transportErr "x"⟩).result =
      (processWallpaper ⟨"w", "n", "c", "p", "v", []⟩
        ⟨none, none, alwaysDownEnv, .httpErr 500⟩).result := by
  refine ⟨?_, ?_, ?_⟩
  · exact claim_C7_enrichment_isolated.1 alwaysDownEnv "n" ["t"] "network down" rfl
  · exact claim_C7_enrichment_isolated.2.1 ["k1"] "boom"
  · exact claim_C7_enrichment_isolated.2.2.2 ⟨"w", "n", "c", "p", "v", []⟩
      ⟨none, none, noKeyEnv, .transportErr "x"⟩
      ⟨none, none, alwaysDownEnv, .httpErr 500⟩ rfl rfl

/-! ## Claim C8: missing download token -/

/-- Claim C8 (confirmed): a 2xx detail page whose download-control element
carries no (or an empty) `data-url` token makes `fetchDetailPage` throw the
permanent `未找到下载链接` error (there is no retry around the detail
fetch); the consumer counts such an item in `failedCount` and neither
batches nor upserts it; when the token is present, the produced record's
download URL is the fixed redirect endpoint combined with the token. -/
theorem claim_C8_download_token :
    (∀ (url : String) (page : DetailPage) (uuid : String),
        page.respOk = true → page.downloadDataUrl.getD "" = "" →
        fetchDetailPage url page uuid = .error ("未找到下载链接: " ++ url)) ∧
    (∀ (st : PoolState) (it : WorkItem) (page : DetailPage),
        it.dbRecord = none → it.fetchOutcome = .ok page → page.respOk = true →
        page.downloadDataUrl.getD "" = "" →
        consumeItem st it =
          { st with stats := { st.stats with failedCount := st.stats.failedCount + 1 } }) ∧
    (∀ (url : String) (page : DetailPage) (uuid : String) (raw : MoewallsRawData),
        fetchDetailPage url page uuid = .ok raw →
        raw.video_url = "https://go.moewalls.com/download.php?video=" ++
          page.downloadDataUrl.getD "") := by
  have hpart1 : ∀ (url : String) (page : DetailPage) (uuid : String),
      page.respOk = true → page.downloadDataUrl.getD "" = "" →
      fetchDetailPage url page uuid = .error ("未找到下载链接: " ++ url) := by
    intro url page uuid hok htok
    unfold fetchDetailPage
    rw [if_neg (by simp [hok])]
    dsimp only
    rw [if_pos htok]
  refine ⟨hpart1, ?_, ?_⟩
  · intro st it page hdb hfetch hok htok
    unfold consumeItem
    rw [hdb]
    dsimp only
    rw [hfetch]
    dsimp only [Except.bind]
    rw [hpart1 it.url page it.uuid hok htok]
  · intro url page uuid raw h
    unfold fetchDetailPage at h
    by_cases hok : ¬page.respOk
    · rw [if_pos hok] at h
      cases h
    · rw [if_neg hok] at h
      dsimp only at h
      by_cases ht : page.downloadDataUrl.getD "" = ""
      · rw [if_pos ht] at h
        cases h
      · rw [if_neg ht] at h
        obtain rfl := Except.ok.inj h
        rfl

/-- Witness for claim C8's theorem: the concrete tokenless page and item,
and the concrete token-carrying page. -/
theorem claim_C8_download_token_witness :
    fetchDetailPage "https://moewalls.com/sakura-stream/" tokenlessPage "uuid-2" =
      .error ("未找到下载链接: " ++ "https://moewalls.com/sakura-stream/") ∧
    consumeItem initPool tokenlessItem =
      { initPool with
          stats := { initPool.stats with
                       failedCount := initPool.stats.failedCount + 1 } } ∧
    (⟨"sakura-stream", "Sakura Stream", "https://moewalls.com/poster.jpg",
        "https://moewalls.com/preview.webm",
        "https://go.moewalls.com/download.php?video=abc123",
        ["anime", "scenery"]⟩ : MoewallsRawData).video_url =
      "https://go.moewalls.com/download.php?video=" ++ tokenPage.downloadDataUrl.getD "" := by
  refine ⟨?_, ?_, ?_⟩
  · exact claim_C8_download_token.1 "https://moewalls.com/sakura-stream/" tokenlessPage
      "uuid-2" rfl rfl
  · exact claim_C8_download_token.2.1 initPool tokenlessItem tokenlessPage rfl rfl rfl rfl
  · exact claim_C8_download_token.2.2 "https://moewalls.com/sakura-stream/" tokenPage
      "uuid-3" _ rfl

/-! ## Claim C9: the mutual-exclusion gate is always released -/

/-- Claim C9 (confirmed): on every exit of `crawl()` — normal completion,
abort, or a session-fatal error re-thrown to the caller — the `finally`
block clears `isRunning` and resets `abortController`, so a subsequent
`crawl()` behaves exactly like one started from the pristine idle state
(in particular, it is not rejected by the already-running guard). -/
theorem claim_C9_guard_release (s : ControllerState) (body : BodyOutcome)
    (h : s.isRunning = false) :
    (crawlSession s body).2.isRunning = false ∧
    (crawlSession s body).2.hasAbortController = false ∧
    (∀ next, crawlSession (crawlSession s body).2 next = crawlSession ⟨false, false⟩ next) ∧
    crawlSession (crawlSession s body).2 .completed = (.ok .completed, ⟨false, false⟩) := by
  cases body <;> simp [crawlSession, h]

/-- Witness for claim C9's theorem: a session that ends in a fatal error
still releases the gate and the next session is accepted. -/
theorem claim_C9_guard_release_witness :
    (crawlSession ⟨false, false⟩ (.fatal "boom")).2.isRunning = false ∧
    crawlSession (crawlSession ⟨false, false⟩ (.fatal "boom")).2 .completed =
      (.ok .completed, ⟨false, false⟩) := by
  exact ⟨(claim_C9_guard_release ⟨false, false⟩ (.fatal "boom") rfl).1,
    (claim_C9_guard_release ⟨false, false⟩ (.fatal "boom") rfl).2.2.2⟩

/-! ## Claim C10: parsed records always carry a non-empty id and title -/

/-- Claim C10 (confirmed): on a 2xx detail page carrying a download token,
`fetchDetailPage` succeeds with a record whose natural id and title are
non-empty — the id defaults to the freshly generated UUID (non-empty by
the `crypto.randomUUID()` contract) exactly when the URL's last path
segment is empty, and the title defaults to `'Untitled'` exactly when the
title element text is missing/blank — so `processWallpaper`'s
missing-natural-id validation failure is never triggered by this fetcher. -/
theorem claim_C10_id_name_defaults (url : String) (page : DetailPage) (uuid : String)
    (hu : uuid ≠ "") (hok : page.respOk = true) (ht : page.downloadDataUrl.getD "" ≠ "") :
    ∃ raw, fetchDetailPage url page uuid = .ok raw ∧
      raw.id ≠ "" ∧ raw.name ≠ "" ∧
      raw.id = (if lastSegment url = "" then uuid else lastSegment url) ∧
      raw.name = (if jsTrim page.entryTitleText = "" then "Untitled"
                  else jsTrim page.entryTitleText) := by
  unfold fetchDetailPage
  rw [if_neg (by simp [hok])]
  dsimp only
  rw [if_neg ht]
  refine ⟨_, rfl, ?_, ?_, rfl, rfl⟩
  · by_cases hseg : lastSegment url = "" <;> simp [hseg, hu]
  · by_cases htt : jsTrim page.entryTitleText = "" <;> simp [htt]

/-- Witness for claim C10's theorem: an empty URL (empty last path segment)
and a blank title element force both defaults, and both fields stay
non-empty. -/
theorem claim_C10_id_name_defaults_witness :
    ((fetchDetailPage "" ⟨true, 200, "OK", "  ", none, none, none, none, some "tok", []⟩
        "uuid-4").toOption.elim false
      (fun raw => (raw.id != "") && (raw.name != ""))) = true := by
  obtain ⟨raw, hraw, -, -, hid, hname⟩ := claim_C10_id_name_defaults ""
    ⟨true, 200, "OK", "  ", none, none, none, none, some "tok", []⟩ "uuid-4"
    (by decide) rfl (by decide)
  rw [hraw]
  dsimp [Except.toOption, Option.elim]
  rw [hid, hname]
  decide

end Flowall
